import Mathlib

/-!
Shallow embedding of `src/queue.c` from the tsps repository: the dual
bounded ring-queue layer (tunnel-side and socket-side) that decouples
packet reception from packet processing.

The static globals of the file (lines 36-42) become one `GlobalState`
record; each C function becomes a Lean function on that record.  The
blocking `read`/`recvfrom` calls are modelled by an explicit stream of
`ReadEvent`s / `RecvEvent`s describing, for each invocation of the
syscall, the returned length, the bytes delivered, (socket side) the
sender address, and `errno`.  C's `%` on `int` is truncated division,
which is `Int.tmod` in Lean; the cursors are `Int` so that the initial
value `-1` of `curptr_tun` / `curptr_sock` is represented exactly.
`exit(EXIT_FAILURE)` paths are modelled by outcome constructors that
carry the messages passed to `tspslog` before termination.
-/

set_option maxRecDepth 4000

/-- `QUEUE_SIZE` (queue.c line 34). -/
def QUEUE_SIZE : Nat := 32

/-- Contents of a packet buffer: the bytes stored by the last read into it. -/
abbrev Bytes := List Int

/-- Abstraction of `struct sockaddr_in` (only identity matters here). -/
structure SockAddrIn where
  sin_addr : Nat
  sin_port : Nat
deriving DecidableEq, Repr

/-- Linux errno value for `EAGAIN` / `EWOULDBLOCK`. -/
def EAGAIN : Int := 11

/-- Linux errno value for `EINTR`. -/
def EINTR : Int := 4

/-- Linux errno value for `ETIMEDOUT`, returned by `pthread_cond_timedwait`. -/
def ETIMEDOUT : Int := 110

/-- The static globals of queue.c lines 36-42: the two slot arrays, the two
length arrays, the socket-side sender-address array, and the two cursor
pairs.  `freeptr_*` is the write cursor (next slot to fill), `curptr_*`
the read cursor (last slot consumed); both queues start with
`freeptr = 0` and `curptr = -1`. -/
structure GlobalState where
  queue_tun : List Bytes
  queue_sock : List Bytes
  length_tun : List Int
  length_sock : List Int
  client_addr : List SockAddrIn
  freeptr_tun : Int
  curptr_tun : Int
  freeptr_sock : Int
  curptr_sock : Int
deriving DecidableEq, Repr

/-- The state at program start: all static arrays zero-initialized
(buffers hold no packet data, lengths 0, addresses zeroed), write
cursors 0, read cursors -1 (queue.c lines 41-42). -/
def initialState : GlobalState :=
  { queue_tun := List.replicate QUEUE_SIZE []
    queue_sock := List.replicate QUEUE_SIZE []
    length_tun := List.replicate QUEUE_SIZE 0
    length_sock := List.replicate QUEUE_SIZE 0
    client_addr := List.replicate QUEUE_SIZE ⟨0, 0⟩
    freeptr_tun := 0
    curptr_tun := -1
    freeptr_sock := 0
    curptr_sock := -1 }

/-- `queue_tun_isfull` (lines 49-56): under the tun lock, report
`freeptr_tun == curptr_tun`. -/
def queue_tun_isfull (s : GlobalState) : Bool :=
  s.freeptr_tun == s.curptr_tun

/-- `queue_sock_isfull` (lines 58-65). -/
def queue_sock_isfull (s : GlobalState) : Bool :=
  s.freeptr_sock == s.curptr_sock

/-- `_queue_tun_isempty` (lines 67-70): `((curptr_tun + 1) % QUEUE_SIZE) == freeptr_tun`
with C's truncated `%`. -/
def _queue_tun_isempty (s : GlobalState) : Bool :=
  Int.tmod (s.curptr_tun + 1) (QUEUE_SIZE : Int) == s.freeptr_tun

/-- `_queue_sock_isempty` (lines 72-75). -/
def _queue_sock_isempty (s : GlobalState) : Bool :=
  Int.tmod (s.curptr_sock + 1) (QUEUE_SIZE : Int) == s.freeptr_sock

/-- `queue_tun_isempty` (lines 77-84): the locked wrapper around
`_queue_tun_isempty`. -/
def queue_tun_isempty (s : GlobalState) : Bool :=
  _queue_tun_isempty s

/-- `queue_sock_isempty` (lines 86-93). -/
def queue_sock_isempty (s : GlobalState) : Bool :=
  _queue_sock_isempty s

/-- One invocation of `read(server.tunfd, buf, MTU)`: the returned length,
the bytes placed in the buffer when the length is positive, and `errno`
as of the call's return. -/
structure ReadEvent where
  len : Int
  payload : Bytes
  errno : Int
deriving DecidableEq, Repr

/-- One invocation of `recvfrom(server.sockfd, buf, MTU, 0, addr, len)`:
as `ReadEvent`, plus the sender address stored when a datagram arrives. -/
structure RecvEvent where
  len : Int
  payload : Bytes
  addr : SockAddrIn
  errno : Int
deriving DecidableEq, Repr

/-- Result of one of the `do { ... } while (length <= 0)` retry loops. -/
inductive ReadOutcome where
  /-- The loop exited with a positive length; `rest` is the unconsumed
  remainder of the event stream. -/
  | success (payload : Bytes) (len : Int) (rest : List ReadEvent)
  /-- `exit(EXIT_FAILURE)` was reached; `logs` are the messages passed to
  `tspslog`, in order, before termination. -/
  | fatal (logs : List String)
  /-- The event stream was exhausted while the loop was still retrying. -/
  | pending
deriving DecidableEq, Repr

/-- The retry loop of `enqueue_tun` (lines 108-115) and `drop_tun`
(lines 153-160): call `read`; if it returned -1 with an errno other than
`EAGAIN` / `EINTR`, log "Read error" and exit; otherwise repeat while the
length is not positive. -/
def readLoop : List ReadEvent → ReadOutcome
  | [] => .pending
  | e :: rest =>
    if e.len = -1 ∧ e.errno ≠ EAGAIN ∧ e.errno ≠ EINTR then
      .fatal ["Read error"]
    else if e.len ≤ 0 then
      readLoop rest
    else
      .success e.payload e.len rest

/-- Result of the `recvfrom` retry loop of `enqueue_sock` (lines 134-143). -/
inductive RecvOutcome where
  | success (payload : Bytes) (len : Int) (addr : SockAddrIn) (rest : List RecvEvent)
  | fatal (logs : List String)
  | pending
deriving DecidableEq, Repr

/-- The retry loop of `enqueue_sock` (lines 134-143): as `readLoop` but
for `recvfrom`, logging "Recvfrom error" on the fatal path and also
yielding the sender address of the successful receive. -/
def recvLoop : List RecvEvent → RecvOutcome
  | [] => .pending
  | e :: rest =>
    if e.len = -1 ∧ e.errno ≠ EAGAIN ∧ e.errno ≠ EINTR then
      .fatal ["Recvfrom error"]
    else if e.len ≤ 0 then
      recvLoop rest
    else
      .success e.payload e.len e.addr rest

/-- Result of the `recvfrom` retry loop of `drop_sock` (lines 168-175),
where the sender address is discarded. -/
inductive RecvDropOutcome where
  | success (payload : Bytes) (len : Int) (rest : List RecvEvent)
  | fatal (logs : List String)
  | pending
deriving DecidableEq, Repr

/-- The retry loop of `drop_sock` (lines 168-175): `recvfrom` with NULL
address arguments (the sender address is discarded) and — as in the C
source — the log message on the fatal path is "Read error". -/
def recvDropLoop : List RecvEvent → RecvDropOutcome
  | [] => .pending
  | e :: rest =>
    if e.len = -1 ∧ e.errno ≠ EAGAIN ∧ e.errno ≠ EINTR then
      .fatal ["Read error"]
    else if e.len ≤ 0 then
      recvDropLoop rest
    else
      .success e.payload e.len rest

/-- The locked slot-reservation section of `enqueue_tun` (lines 99-106):
if `freeptr_tun == curptr_tun` the function returns with no slot;
otherwise `ptr = (freeptr_tun++) % QUEUE_SIZE; freeptr_tun %= QUEUE_SIZE;`
yields the slot index and the advanced write cursor. -/
def reserve_tun (s : GlobalState) : Option (Nat × GlobalState) :=
  if s.freeptr_tun = s.curptr_tun then
    none
  else
    some ((Int.tmod s.freeptr_tun (QUEUE_SIZE : Int)).toNat,
      { s with freeptr_tun := Int.tmod (s.freeptr_tun + 1) (QUEUE_SIZE : Int) })

/-- The locked slot-reservation section of `enqueue_sock` (lines 125-132). -/
def reserve_sock (s : GlobalState) : Option (Nat × GlobalState) :=
  if s.freeptr_sock = s.curptr_sock then
    none
  else
    some ((Int.tmod s.freeptr_sock (QUEUE_SIZE : Int)).toNat,
      { s with freeptr_sock := Int.tmod (s.freeptr_sock + 1) (QUEUE_SIZE : Int) })

/-- Outcome of one call to `enqueue_tun`.  Only the `published`
constructor corresponds to `pthread_cond_signal(&cond_tunqueue)`
(line 117); the `full` constructor is the early return of lines 100-103,
which signals nothing and performs no read. -/
inductive EnqueueTunOutcome where
  | full (s : GlobalState) (events : List ReadEvent)
  | published (s : GlobalState) (events : List ReadEvent)
  | fatal (logs : List String)
  | pending
deriving DecidableEq, Repr

/-- Outcome of one call to `enqueue_sock`; `published` corresponds to
`pthread_cond_signal(&cond_sockqueue)` (line 145). -/
inductive EnqueueSockOutcome where
  | full (s : GlobalState) (events : List RecvEvent)
  | published (s : GlobalState) (events : List RecvEvent)
  | fatal (logs : List String)
  | pending
deriving DecidableEq, Repr

/-- `enqueue_tun` (lines 95-118): reserve a slot under the lock (early
return if full), then run the `read` retry loop into that slot, storing
the payload in `queue_tun[ptr]` and the returned length in
`length_tun[ptr]`, then signal the consumer. -/
def enqueue_tun (s : GlobalState) (events : List ReadEvent) : EnqueueTunOutcome :=
  match reserve_tun s with
  | none => .full s events
  | some (ptr, s1) =>
    match readLoop events with
    | .success payload len rest =>
      .published { s1 with
        queue_tun := s1.queue_tun.set ptr payload
        length_tun := s1.length_tun.set ptr len } rest
    | .fatal logs => .fatal logs
    | .pending => .pending

/-- `enqueue_sock` (lines 120-146): as `enqueue_tun`, additionally
storing the sender address in `client_addr[ptr]`. -/
def enqueue_sock (s : GlobalState) (events : List RecvEvent) : EnqueueSockOutcome :=
  match reserve_sock s with
  | none => .full s events
  | some (ptr, s1) =>
    match recvLoop events with
    | .success payload len addr rest =>
      .published { s1 with
        queue_sock := s1.queue_sock.set ptr payload
        length_sock := s1.length_sock.set ptr len
        client_addr := s1.client_addr.set ptr addr } rest
    | .fatal logs => .fatal logs
    | .pending => .pending

/-- Outcome of one call to `drop_tun` / `drop_sock`: `drained` carries the
(unchanged) global state, the bytes read into the function-local `dummy`
scratch buffer, and the rest of the event stream. -/
inductive DropOutcome where
  | drained (s : GlobalState) (dummy : Bytes) (events : List ReadEvent)
  | drainedSock (s : GlobalState) (dummy : Bytes) (events : List RecvEvent)
  | fatal (logs : List String)
  | pending
deriving DecidableEq, Repr

/-- `drop_tun` (lines 148-161): run the `read` retry loop into the local
`dummy` buffer; no global of either queue is touched. -/
def drop_tun (s : GlobalState) (events : List ReadEvent) : DropOutcome :=
  match readLoop events with
  | .success payload _ rest => .drained s payload rest
  | .fatal logs => .fatal logs
  | .pending => .pending

/-- `drop_sock` (lines 163-176): run the `recvfrom` retry loop into the
local `dummy` buffer, discarding the sender address; no global of either
queue is touched. -/
def drop_sock (s : GlobalState) (events : List RecvEvent) : DropOutcome :=
  match recvDropLoop events with
  | .success payload _ rest => .drainedSock s payload rest
  | .fatal logs => .fatal logs
  | .pending => .pending

/-- Outcome of one call to `dequeue_tun`.  `processed` records the single
synchronous call `process_tun_packet(queue_tun[ptr], length_tun[ptr])`
(line 191) with exactly the claimed slot's payload and recorded length. -/
inductive DequeueTunOutcome where
  | empty (s : GlobalState)
  | processed (s : GlobalState) (payload : Bytes) (len : Int)
deriving DecidableEq, Repr

/-- Outcome of one call to `dequeue_sock`; `processed` records the call
`process_sock_packet(&client_addr[ptr], queue_sock[ptr], length_sock[ptr])`
(line 207). -/
inductive DequeueSockOutcome where
  | empty (s : GlobalState)
  | processed (s : GlobalState) (addr : SockAddrIn) (payload : Bytes) (len : Int)
deriving DecidableEq, Repr

/-- `dequeue_tun` (lines 178-192): under the lock, return if empty;
otherwise `ptr = (++curptr_tun) % QUEUE_SIZE; curptr_tun %= QUEUE_SIZE;`
then (outside the lock) hand slot `ptr`'s payload and length to the
processing callback. -/
def dequeue_tun (s : GlobalState) : DequeueTunOutcome :=
  if _queue_tun_isempty s then
    .empty s
  else
    let ptr := (Int.tmod (s.curptr_tun + 1) (QUEUE_SIZE : Int)).toNat
    let s1 := { s with curptr_tun := Int.tmod (s.curptr_tun + 1) (QUEUE_SIZE : Int) }
    .processed s1 (s1.queue_tun.getD ptr []) (s1.length_tun.getD ptr 0)

/-- `dequeue_sock` (lines 194-208). -/
def dequeue_sock (s : GlobalState) : DequeueSockOutcome :=
  if _queue_sock_isempty s then
    .empty s
  else
    let ptr := (Int.tmod (s.curptr_sock + 1) (QUEUE_SIZE : Int)).toNat
    let s1 := { s with curptr_sock := Int.tmod (s.curptr_sock + 1) (QUEUE_SIZE : Int) }
    .processed s1 (s1.client_addr.getD ptr ⟨0, 0⟩)
      (s1.queue_sock.getD ptr []) (s1.length_sock.getD ptr 0)

/-- Outcome of one call to `block_on_tun_empty` / `block_on_sock_empty`. -/
inductive BlockOutcome where
  /-- The function returned to its caller; `s` is the global state it
  observed at the final (false) emptiness check. -/
  | returned (s : GlobalState)
  /-- `exit(1)` was reached after logging. -/
  | fatal (logs : List String)
  /-- The wakeup-event stream was exhausted while still waiting. -/
  | pending
deriving DecidableEq, Repr

/-- `block_on_tun_empty` (lines 210-226): while the queue is empty, do a
`pthread_cond_timedwait` bounded by one second; a return code other than
0 (signalled) or `ETIMEDOUT` logs "Conditional wait error" and exits;
otherwise re-check emptiness and, if still empty, wait again.  Each
element of the event stream is one wakeup: the wait's return code paired
with the global state visible when the lock is re-acquired. -/
def block_on_tun_empty : GlobalState → List (Int × GlobalState) → BlockOutcome
  | s, [] => if _queue_tun_isempty s then .pending else .returned s
  | s, (rc, s1) :: rest =>
    if _queue_tun_isempty s then
      if rc ≠ 0 ∧ rc ≠ ETIMEDOUT then
        .fatal ["Conditional wait error"]
      else
        block_on_tun_empty s1 rest
    else
      .returned s

/-- `block_on_sock_empty` (lines 228-244). -/
def block_on_sock_empty : GlobalState → List (Int × GlobalState) → BlockOutcome
  | s, [] => if _queue_sock_isempty s then .pending else .returned s
  | s, (rc, s1) :: rest =>
    if _queue_sock_isempty s then
      if rc ≠ 0 ∧ rc ≠ ETIMEDOUT then
        .fatal ["Conditional wait error"]
      else
        block_on_sock_empty s1 rest
    else
      .returned s

/-- Repeated `enqueue_tun` calls of the tun producer thread, consuming one
shared stream of read events: each published enqueue continues with the
new state and the remaining events; a full, fatal or exhausted outcome
stops. -/
def runTunEnqueues : Nat → GlobalState → List ReadEvent → GlobalState × List ReadEvent
  | 0, s, events => (s, events)
  | n + 1, s, events =>
    match enqueue_tun s events with
    | .published s1 rest => runTunEnqueues n s1 rest
    | .full s1 rest => (s1, rest)
    | _ => (s, events)

/-- Read events delivering packets with payloads `[0]`, `[1]`, ... — one
per successful `read`, each of length 1 and with errno 0. -/
def c1Events : List ReadEvent :=
  (List.range 33).map (fun k => { len := 1, payload := [(k : Int)], errno := 0 })

/-- Program counter of the tun producer thread inside `enqueue_tun`. -/
inductive ProdPC where
  /-- Outside the critical section, about to run the locked reservation
  (lines 99-106) on its next step. -/
  | ready
  /-- Between releasing the lock (line 106) and completing the `read`
  retry loop into slot `ptr` for the `item`-th packet; the write-cursor
  advance is already visible to the consumer. -/
  | writing (ptr : Nat) (item : Nat)
deriving DecidableEq, Repr

/-- Program counter of the tun consumer thread inside `dequeue_tun`. -/
inductive ConsPC where
  /-- About to run the locked claim section (lines 182-189). -/
  | ready
  /-- Between releasing the lock (line 189) and the
  `process_tun_packet` call (line 191) on slot `ptr`. -/
  | claimed (ptr : Nat)
deriving DecidableEq, Repr

/-- Interleaving model of one queue (the tun queue) shared by its single
producer and single consumer.  The lock-protected sections of
`enqueue_tun` and `dequeue_tun` are atomic steps; the `read` retry loop
and the `process_tun_packet` call, which run with the lock released, are
separate steps.  `slotItem j = some k` means slot `j` holds the fully
written payload of the producer's `k`-th packet; ghost fields record the
publish order, the items handed to `process_tun_packet` in call order,
and whether a processed slot was still being written at that moment. -/
structure Machine where
  freeptr_tun : Int
  curptr_tun : Int
  slotItem : List (Option Nat)
  prod : ProdPC
  cons : ConsPC
  nextItem : Nat
  published : List Nat
  delivered : List (Option Nat)
  deliveredDuringWrite : Bool
deriving DecidableEq, Repr

/-- Which thread takes the next step. -/
inductive Move where
  | prod
  | cons
deriving DecidableEq, Repr

/-- One step of the interleaving model.  The producer's `ready` step is
the locked reservation of `enqueue_tun` lines 99-106 (early return when
`freeptr_tun == curptr_tun`); its `writing` step completes the `read`
into the slot and issues the `pthread_cond_signal` (lines 108-117).  The
consumer's `ready` step is the locked claim of `dequeue_tun` lines
182-189 (early return when `_queue_tun_isempty`); its `claimed` step is
the `process_tun_packet` call of line 191, which reads whatever the slot
holds at that moment. -/
def mstep (m : Machine) : Move → Machine
  | .prod =>
    match m.prod with
    | .ready =>
      if m.freeptr_tun = m.curptr_tun then
        m
      else
        { m with
          freeptr_tun := Int.tmod (m.freeptr_tun + 1) (QUEUE_SIZE : Int)
          prod := .writing (Int.tmod m.freeptr_tun (QUEUE_SIZE : Int)).toNat m.nextItem
          nextItem := m.nextItem + 1 }
    | .writing ptr item =>
      { m with
        slotItem := m.slotItem.set ptr (some item)
        published := m.published ++ [item]
        prod := .ready }
  | .cons =>
    match m.cons with
    | .ready =>
      if Int.tmod (m.curptr_tun + 1) (QUEUE_SIZE : Int) = m.freeptr_tun then
        m
      else
        { m with
          curptr_tun := Int.tmod (m.curptr_tun + 1) (QUEUE_SIZE : Int)
          cons := .claimed (Int.tmod (m.curptr_tun + 1) (QUEUE_SIZE : Int)).toNat }
    | .claimed ptr =>
      { m with
        delivered := m.delivered ++ [m.slotItem.getD ptr none]
        deliveredDuringWrite := m.deliveredDuringWrite ||
          (match m.prod with
           | .writing p _ => p == ptr
           | .ready => false)
        cons := .ready }

/-- Run the interleaving model over a schedule. -/
def mrun (m : Machine) (sched : List Move) : Machine :=
  sched.foldl mstep m

/-- The interleaving model's state at program start: cursors as in
`initialState`, no slot ever written, both threads outside their
critical sections. -/
def machineInit : Machine :=
  { freeptr_tun := 0
    curptr_tun := -1
    slotItem := List.replicate QUEUE_SIZE none
    prod := .ready
    cons := .ready
    nextItem := 0
    published := []
    delivered := []
    deliveredDuringWrite := false }

/-- Schedule exhibiting the partial-slot race: the producer reserves slot
0 and is still inside its `read`; the consumer then claims slot 0 and
processes it. -/
def c3Schedule : List Move :=
  [.prod, .cons, .cons]

/-- Schedule with 33 complete producer cycles (reserve + write each) from
the fresh state, followed by one complete consumer cycle (claim +
process). -/
def c4Schedule : List Move :=
  (List.replicate 33 [Move.prod, Move.prod]).flatten ++ [.cons, .cons]

/-- Claim C1: the claim asserts that after 31 successful enqueue
reservations from the initial state `isFull` is true, `isEmpty` is false,
and a 32nd enqueue observes the queue full and reserves nothing.  The
code violates this: `curptr_tun` starts at -1 and is only ever changed by
`dequeue_tun`, so before the first dequeue `freeptr_tun == curptr_tun`
can never hold and the full check never fires.  Evaluating the code at
the failing input: after 31 published enqueues `queue_tun_isfull` is
false (`freeptr_tun = 31`, `curptr_tun = -1`); the 32nd enqueue succeeds
and stores its packet in slot 31, wrapping `freeptr_tun` to 0, at which
point the queue wrongly reports *empty*; a 33rd enqueue then overwrites
the stored, unconsumed packet `[0]` in slot 0 with `[32]`. -/
theorem c1_thirty_one_enqueues_do_not_fill :
    queue_tun_isfull (runTunEnqueues 31 initialState c1Events).1 = false
    ∧ (runTunEnqueues 31 initialState c1Events).1.freeptr_tun = 31
    ∧ (runTunEnqueues 31 initialState c1Events).1.curptr_tun = -1
    ∧ queue_tun_isempty (runTunEnqueues 31 initialState c1Events).1 = false
    ∧ (runTunEnqueues 32 initialState c1Events).1.freeptr_tun = 0
    ∧ (runTunEnqueues 32 initialState c1Events).1.queue_tun.getD 31 [] = [31]
    ∧ queue_tun_isempty (runTunEnqueues 32 initialState c1Events).1 = true
    ∧ (runTunEnqueues 32 initialState c1Events).1.queue_tun.getD 0 [] = [0]
    ∧ (runTunEnqueues 33 initialState c1Events).1.queue_tun.getD 0 [] = [32] := by
  decide

/-- Claim C3: the claim asserts that in every interleaving the consumer
never observes a partially written slot, because the payload write
completes before the write-index advance is published.  The code violates
this: `enqueue_tun` advances `freeptr_tun` and releases the lock *before*
the `read` into the slot, so the queue already looks non-empty to
`dequeue_tun` while the slot is still being filled.  Evaluating the
interleaving model at the failing schedule (producer reserves slot 0 and
is still inside `read`; consumer claims and processes): the consumer
hands slot 0 to `process_tun_packet` while the producer is mid-write
(`deliveredDuringWrite = true`) and the slot holds no completely written
payload (`delivered = [none]`, producer still at `writing 0 0`). -/
theorem c3_partial_slot_observed :
    (mrun machineInit c3Schedule).deliveredDuringWrite = true
    ∧ (mrun machineInit c3Schedule).delivered = [none]
    ∧ (mrun machineInit c3Schedule).prod = ProdPC.writing 0 0 := by
  decide

/-- Claim C4: the claim asserts FIFO delivery for every interleaving of
the single producer and single consumer.  The code violates it: because
the full check never fires before the first dequeue (see C1), a producer
that completes 33 enqueues from the fresh state overwrites slot 0, and
the consumer's first claim then delivers item 32 although items
0,1,...,31 were published earlier.  Evaluating the interleaving model at
that schedule: publish order is 0,...,32 but the first delivered item is
item 32. -/
theorem c4_fifo_violation :
    (mrun machineInit c4Schedule).published = List.range 33
    ∧ (mrun machineInit c4Schedule).delivered = [some 32]
    ∧ (mrun machineInit c4Schedule).published.headD 32 = 0 := by
  decide

/-- Claim C2 counterexample: the claim asserts that the blocking wait
"returns normally on timeout expiry without requiring the queue to be
non-empty".  At the concrete input — queue empty (`initialState`), one
`pthread_cond_timedwait` wakeup with return code `ETIMEDOUT` and the
queue still empty — the call does not return: it re-checks emptiness and
waits again (the model reports `pending`, i.e. still inside the loop with
the wakeup stream exhausted), for both `block_on_tun_empty` and
`block_on_sock_empty`. -/
theorem c2_timeout_expiry_does_not_return :
    block_on_tun_empty initialState [(ETIMEDOUT, initialState)] = BlockOutcome.pending
    ∧ block_on_sock_empty initialState [(ETIMEDOUT, initialState)] = BlockOutcome.pending := by
  decide

/-- Helper: `block_on_tun_empty` hands control back to its caller only
when the queue it observes is non-empty. -/
theorem block_tun_returned_nonempty :
    ∀ (evs : List (Int × GlobalState)) (s s1 : GlobalState),
      block_on_tun_empty s evs = .returned s1 → _queue_tun_isempty s1 = false := by
  intro evs
  induction evs with
  | nil =>
    intro s s1 h
    unfold block_on_tun_empty at h
    by_cases he : _queue_tun_isempty s
    · rw [if_pos he] at h
      exact absurd h (by simp)
    · rw [if_neg he] at h
      injection h with h1
      subst h1
      exact Bool.not_eq_true _ ▸ Bool.of_not_eq_true he
  | cons e rest ih =>
    intro s s1 h
    obtain ⟨rc, s2⟩ := e
    unfold block_on_tun_empty at h
    by_cases he : _queue_tun_isempty s
    · rw [if_pos he] at h
      by_cases hrc : rc ≠ 0 ∧ rc ≠ ETIMEDOUT
      · rw [if_pos hrc] at h
        exact absurd h (by simp)
      · rw [if_neg hrc] at h
        exact ih s2 s1 h
    · rw [if_neg he] at h
      injection h with h1
      subst h1
      exact Bool.of_not_eq_true he

/-- Helper: `block_on_sock_empty` hands control back to its caller only
when the queue it observes is non-empty. -/
theorem block_sock_returned_nonempty :
    ∀ (evs : List (Int × GlobalState)) (s s1 : GlobalState),
      block_on_sock_empty s evs = .returned s1 → _queue_sock_isempty s1 = false := by
  intro evs
  induction evs with
  | nil =>
    intro s s1 h
    unfold block_on_sock_empty at h
    by_cases he : _queue_sock_isempty s
    · rw [if_pos he] at h
      exact absurd h (by simp)
    · rw [if_neg he] at h
      injection h with h1
      subst h1
      exact Bool.of_not_eq_true he
  | cons e rest ih =>
    intro s s1 h
    obtain ⟨rc, s2⟩ := e
    unfold block_on_sock_empty at h
    by_cases he : _queue_sock_isempty s
    · rw [if_pos he] at h
      by_cases hrc : rc ≠ 0 ∧ rc ≠ ETIMEDOUT
      · rw [if_pos hrc] at h
        exact absurd h (by simp)
      · rw [if_neg hrc] at h
        exact ih s2 s1 h
    · rw [if_neg he] at h
      injection h with h1
      subst h1
      exact Bool.of_not_eq_true he

/-- Helper: the `read` retry loop reaches `exit(EXIT_FAILURE)` only with
the single log message "Read error", and only because some read in the
stream returned -1 with an errno that is neither `EAGAIN` nor `EINTR`. -/
theorem readLoop_fatal_char :
    ∀ (evs : List ReadEvent) (l : List String), readLoop evs = .fatal l →
      l = ["Read error"] ∧
        ∃ e, e ∈ evs ∧ e.len = -1 ∧ e.errno ≠ EAGAIN ∧ e.errno ≠ EINTR := by
  intro evs
  induction evs with
  | nil =>
    intro l h
    exact absurd h (by simp [readLoop])
  | cons e rest ih =>
    intro l h
    unfold readLoop at h
    by_cases hf : e.len = -1 ∧ e.errno ≠ EAGAIN ∧ e.errno ≠ EINTR
    · rw [if_pos hf] at h
      injection h with h1
      exact ⟨h1.symm, e, List.mem_cons_self e rest, hf.1, hf.2.1, hf.2.2⟩
    · rw [if_neg hf] at h
      by_cases hl : e.len ≤ 0
      · rw [if_pos hl] at h
        obtain ⟨h1, e1, hmem, hprop⟩ := ih l h
        exact ⟨h1, e1, List.mem_cons_of_mem e hmem, hprop⟩
      · rw [if_neg hl] at h
        exact absurd h (by simp)

/-- Helper: the `read` retry loop hands a payload back to `enqueue_tun` /
`drop_tun` only with a positive length. -/
theorem readLoop_success_pos :
    ∀ (evs rest : List ReadEvent) (p : Bytes) (n : Int),
      readLoop evs = .success p n rest → 0 < n := by
  intro evs
  induction evs with
  | nil =>
    intro rest p n h
    exact absurd h (by simp [readLoop])
  | cons e tail ih =>
    intro rest p n h
    unfold readLoop at h
    by_cases hf : e.len = -1 ∧ e.errno ≠ EAGAIN ∧ e.errno ≠ EINTR
    · rw [if_pos hf] at h
      exact absurd h (by simp)
    · rw [if_neg hf] at h
      by_cases hl : e.len ≤ 0
      · rw [if_pos hl] at h
        exact ih rest p n h
      · rw [if_neg hl] at h
        injection h with h1 h2 h3
        omega

/-- Helper: the `recvfrom` retry loop of `enqueue_sock` reaches
`exit(EXIT_FAILURE)` only with the single log message "Recvfrom error",
and only because some receive returned -1 with an errno that is neither
`EAGAIN` nor `EINTR`. -/
theorem recvLoop_fatal_char :
    ∀ (evs : List RecvEvent) (l : List String), recvLoop evs = .fatal l →
      l = ["Recvfrom error"] ∧
        ∃ e, e ∈ evs ∧ e.len = -1 ∧ e.errno ≠ EAGAIN ∧ e.errno ≠ EINTR := by
  intro evs
  induction evs with
  | nil =>
    intro l h
    exact absurd h (by simp [recvLoop])
  | cons e rest ih =>
    intro l h
    unfold recvLoop at h
    by_cases hf : e.len = -1 ∧ e.errno ≠ EAGAIN ∧ e.errno ≠ EINTR
    · rw [if_pos hf] at h
      injection h with h1
      exact ⟨h1.symm, e, List.mem_cons_self e rest, hf.1, hf.2.1, hf.2.2⟩
    · rw [if_neg hf] at h
      by_cases hl : e.len ≤ 0
      · rw [if_pos hl] at h
        obtain ⟨h1, e1, hmem, hprop⟩ := ih l h
        exact ⟨h1, e1, List.mem_cons_of_mem e hmem, hprop⟩
      · rw [if_neg hl] at h
        exact absurd h (by simp)

/-- Helper: the `recvfrom` retry loop of `enqueue_sock` hands a datagram
back only with a positive length. -/
theorem recvLoop_success_pos :
    ∀ (evs rest : List RecvEvent) (p : Bytes) (n : Int) (a : SockAddrIn),
      recvLoop evs = .success p n a rest → 0 < n := by
  intro evs
  induction evs with
  | nil =>
    intro rest p n a h
    exact absurd h (by simp [recvLoop])
  | cons e tail ih =>
    intro rest p n a h
    unfold recvLoop at h
    by_cases hf : e.len = -1 ∧ e.errno ≠ EAGAIN ∧ e.errno ≠ EINTR
    · rw [if_pos hf] at h
      exact absurd h (by simp)
    · rw [if_neg hf] at h
      by_cases hl : e.len ≤ 0
      · rw [if_pos hl] at h
        exact ih rest p n a h
      · rw [if_neg hl] at h
        injection h with h1 h2 h3 h4
        omega

/-- Helper: the `recvfrom` retry loop of `drop_sock` reaches
`exit(EXIT_FAILURE)` only with the single log message "Read error" (the
message the C source uses there), and only because some receive returned
-1 with an errno that is neither `EAGAIN` nor `EINTR`. -/
theorem recvDropLoop_fatal_char :
    ∀ (evs : List RecvEvent) (l : List String), recvDropLoop evs = .fatal l →
      l = ["Read error"] ∧
        ∃ e, e ∈ evs ∧ e.len = -1 ∧ e.errno ≠ EAGAIN ∧ e.errno ≠ EINTR := by
  intro evs
  induction evs with
  | nil =>
    intro l h
    exact absurd h (by simp [recvDropLoop])
  | cons e rest ih =>
    intro l h
    unfold recvDropLoop at h
    by_cases hf : e.len = -1 ∧ e.errno ≠ EAGAIN ∧ e.errno ≠ EINTR
    · rw [if_pos hf] at h
      injection h with h1
      exact ⟨h1.symm, e, List.mem_cons_self e rest, hf.1, hf.2.1, hf.2.2⟩
    · rw [if_neg hf] at h
      by_cases hl : e.len ≤ 0
      · rw [if_pos hl] at h
        obtain ⟨h1, e1, hmem, hprop⟩ := ih l h
        exact ⟨h1, e1, List.mem_cons_of_mem e hmem, hprop⟩
      · rw [if_neg hl] at h
        exact absurd h (by simp)

/-- A state whose tun and sock queues are both non-empty: one slot
reserved on each side. -/
def nonemptyBothState : GlobalState :=
  { initialState with freeptr_tun := 1, freeptr_sock := 1 }

/-- A state whose full checks fire on both sides
(`freeptr == curptr` for each queue). -/
def fullBothState : GlobalState :=
  { initialState with curptr_tun := 0, curptr_sock := 0 }

/-- Claim C2 as amended: `block_on_tun_empty` / `block_on_sock_empty`
block the calling task until the queue is non-empty, re-checking at least
once per 1-second poll interval even without a signal; but a timeout
expiry does *not* return to the caller — the function itself re-checks
emptiness and waits again, returning only when the queue it observes is
non-empty (so no emptiness recheck is deferred to the caller's loop); a
wait return code other than 0 and `ETIMEDOUT` logs once and terminates
the process. -/
theorem c2_block_until_nonempty :
    ∀ (s : GlobalState) (evs : List (Int × GlobalState)) (s1 : GlobalState),
      (block_on_tun_empty s evs = .returned s1 → _queue_tun_isempty s1 = false)
      ∧ (block_on_sock_empty s evs = .returned s1 → _queue_sock_isempty s1 = false)
      ∧ (_queue_tun_isempty s = false → block_on_tun_empty s evs = .returned s)
      ∧ (_queue_sock_isempty s = false → block_on_sock_empty s evs = .returned s)
      ∧ (∀ (s2 : GlobalState) (rest : List (Int × GlobalState)),
          _queue_tun_isempty s = true →
            block_on_tun_empty s ((ETIMEDOUT, s2) :: rest) = block_on_tun_empty s2 rest)
      ∧ (∀ (s2 : GlobalState) (rest : List (Int × GlobalState)),
          _queue_sock_isempty s = true →
            block_on_sock_empty s ((ETIMEDOUT, s2) :: rest) = block_on_sock_empty s2 rest)
      ∧ (∀ (rc : Int) (s2 : GlobalState) (rest : List (Int × GlobalState)),
          _queue_tun_isempty s = true → rc ≠ 0 → rc ≠ ETIMEDOUT →
            block_on_tun_empty s ((rc, s2) :: rest) = .fatal ["Conditional wait error"])
      ∧ (∀ (rc : Int) (s2 : GlobalState) (rest : List (Int × GlobalState)),
          _queue_sock_isempty s = true → rc ≠ 0 → rc ≠ ETIMEDOUT →
            block_on_sock_empty s ((rc, s2) :: rest) = .fatal ["Conditional wait error"]) := by
  intro s evs s1
  refine ⟨block_tun_returned_nonempty evs s s1, block_sock_returned_nonempty evs s s1,
    ?_, ?_, ?_, ?_, ?_, ?_⟩
  · intro h
    cases evs with
    | nil => simp [block_on_tun_empty, h]
    | cons e rest =>
      obtain ⟨rc, s2⟩ := e
      simp [block_on_tun_empty, h]
  · intro h
    cases evs with
    | nil => simp [block_on_sock_empty, h]
    | cons e rest =>
      obtain ⟨rc, s2⟩ := e
      simp [block_on_sock_empty, h]
  · intro s2 rest h
    simp only [block_on_tun_empty]
    rw [if_pos h, if_neg (by simp)]
  · intro s2 rest h
    simp only [block_on_sock_empty]
    rw [if_pos h, if_neg (by simp)]
  · intro rc s2 rest h h0 htd
    unfold block_on_tun_empty
    rw [if_pos h, if_pos ⟨h0, htd⟩]
  · intro rc s2 rest h h0 htd
    unfold block_on_sock_empty
    rw [if_pos h, if_pos ⟨h0, htd⟩]

/-- Witness for C2's amended theorem at concrete inputs: a non-empty
queue makes the wait return at once with that state; a timeout wakeup on
an empty queue loops back into another wait; a wait error (return code
22) is fatal with the single log message. -/
theorem c2_block_until_nonempty_witness :
    block_on_tun_empty nonemptyBothState [] = BlockOutcome.returned nonemptyBothState
    ∧ block_on_sock_empty nonemptyBothState [] = BlockOutcome.returned nonemptyBothState
    ∧ block_on_tun_empty initialState ((ETIMEDOUT, initialState) :: []) =
        block_on_tun_empty initialState []
    ∧ block_on_sock_empty initialState ((ETIMEDOUT, initialState) :: []) =
        block_on_sock_empty initialState []
    ∧ block_on_tun_empty initialState ((22, initialState) :: []) =
        BlockOutcome.fatal ["Conditional wait error"]
    ∧ block_on_sock_empty initialState ((22, initialState) :: []) =
        BlockOutcome.fatal ["Conditional wait error"] :=
  ⟨(c2_block_until_nonempty nonemptyBothState [] nonemptyBothState).2.2.1 (by decide),
   (c2_block_until_nonempty nonemptyBothState [] nonemptyBothState).2.2.2.1 (by decide),
   (c2_block_until_nonempty initialState [] initialState).2.2.2.2.1
     initialState [] (by decide),
   (c2_block_until_nonempty initialState [] initialState).2.2.2.2.2.1
     initialState [] (by decide),
   (c2_block_until_nonempty initialState [] initialState).2.2.2.2.2.2.1
     22 initialState [] (by decide) (by decide) (by decide),
   (c2_block_until_nonempty initialState [] initialState).2.2.2.2.2.2.2
     22 initialState [] (by decide) (by decide) (by decide)⟩

/-- Claim C5: `queue_tun_isfull` / `queue_sock_isfull` return true iff
`writeCursor == readCursor`, and `queue_tun_isempty` /
`queue_sock_isempty` return true iff `(readCursor + 1) mod N ==
writeCursor` with the mathematical modulus, for every state whose read
cursors are at least their initial value -1 (C's truncated `%` agrees
with the mathematical one there because `curptr + 1` is non-negative).
The lock acquisition around each observation has no effect on the value
in this sequential model. -/
theorem c5_isfull_isempty_formulas (s : GlobalState)
    (ht : -1 ≤ s.curptr_tun) (hs : -1 ≤ s.curptr_sock) :
    (queue_tun_isfull s = true ↔ s.freeptr_tun = s.curptr_tun)
    ∧ (queue_sock_isfull s = true ↔ s.freeptr_sock = s.curptr_sock)
    ∧ (queue_tun_isempty s = true ↔
        (s.curptr_tun + 1) % (QUEUE_SIZE : Int) = s.freeptr_tun)
    ∧ (queue_sock_isempty s = true ↔
        (s.curptr_sock + 1) % (QUEUE_SIZE : Int) = s.freeptr_sock) := by
  refine ⟨?_, ?_, ?_, ?_⟩
  · simp [queue_tun_isfull]
  · simp [queue_sock_isfull]
  · rw [queue_tun_isempty, _queue_tun_isempty,
      Int.tmod_eq_emod (by omega) (by decide)]
    simp
  · rw [queue_sock_isempty, _queue_sock_isempty,
      Int.tmod_eq_emod (by omega) (by decide)]
    simp

/-- Witness for C5 at the initial state. -/
theorem c5_isfull_isempty_formulas_witness :
    (queue_tun_isfull initialState = true ↔
      initialState.freeptr_tun = initialState.curptr_tun)
    ∧ (queue_sock_isfull initialState = true ↔
        initialState.freeptr_sock = initialState.curptr_sock)
    ∧ (queue_tun_isempty initialState = true ↔
        (initialState.curptr_tun + 1) % (QUEUE_SIZE : Int) = initialState.freeptr_tun)
    ∧ (queue_sock_isempty initialState = true ↔
        (initialState.curptr_sock + 1) % (QUEUE_SIZE : Int) = initialState.freeptr_sock) :=
  c5_isfull_isempty_formulas initialState (by decide) (by decide)

/-- Claim C6: slot reservation under the queue's lock.  If the queue is
full (`freeptr == curptr`) the enqueue yields no slot and writes nothing
— the whole call returns with the state and the I/O source untouched;
otherwise the reservation yields the slot index equal to the current
write cursor and advances the write cursor to `(writeCursor + 1) mod N`
before the lock is released.  The cursor bounds `0 ≤ freeptr < N` hold
in every reachable state (the cursor is always reduced `% QUEUE_SIZE`). -/
theorem c6_reserve_slot_spec (s : GlobalState)
    (evs : List ReadEvent) (fs : List RecvEvent)
    (ht0 : 0 ≤ s.freeptr_tun) (ht1 : s.freeptr_tun < (QUEUE_SIZE : Int))
    (hs0 : 0 ≤ s.freeptr_sock) (hs1 : s.freeptr_sock < (QUEUE_SIZE : Int)) :
    (s.freeptr_tun = s.curptr_tun →
      reserve_tun s = none ∧ enqueue_tun s evs = .full s evs)
    ∧ (s.freeptr_tun ≠ s.curptr_tun →
        reserve_tun s = some (s.freeptr_tun.toNat,
          { s with freeptr_tun := (s.freeptr_tun + 1) % (QUEUE_SIZE : Int) }))
    ∧ (s.freeptr_sock = s.curptr_sock →
        reserve_sock s = none ∧ enqueue_sock s fs = .full s fs)
    ∧ (s.freeptr_sock ≠ s.curptr_sock →
        reserve_sock s = some (s.freeptr_sock.toNat,
          { s with freeptr_sock := (s.freeptr_sock + 1) % (QUEUE_SIZE : Int) })) := by
  refine ⟨fun h => ?_, fun h => ?_, fun h => ?_, fun h => ?_⟩
  · have hr : reserve_tun s = none := by
      unfold reserve_tun
      rw [if_pos h]
    exact ⟨hr, by rw [enqueue_tun, hr]⟩
  · unfold reserve_tun
    rw [if_neg h, Int.tmod_eq_emod ht0 (by decide),
      Int.tmod_eq_emod (by omega) (by decide), Int.emod_eq_of_lt ht0 ht1]
  · have hr : reserve_sock s = none := by
      unfold reserve_sock
      rw [if_pos h]
    exact ⟨hr, by rw [enqueue_sock, hr]⟩
  · unfold reserve_sock
    rw [if_neg h, Int.tmod_eq_emod hs0 (by decide),
      Int.tmod_eq_emod (by omega) (by decide), Int.emod_eq_of_lt hs0 hs1]

/-- Witness for C6 at concrete states: a full queue on both sides yields
no slot and an untouched enqueue; the initial (non-full) state yields
slot 0 and the write cursor advances to 1. -/
theorem c6_reserve_slot_spec_witness :
    (reserve_tun fullBothState = none
      ∧ enqueue_tun fullBothState [] = .full fullBothState [])
    ∧ reserve_tun initialState = some (initialState.freeptr_tun.toNat,
        { initialState with
            freeptr_tun := (initialState.freeptr_tun + 1) % (QUEUE_SIZE : Int) })
    ∧ (reserve_sock fullBothState = none
        ∧ enqueue_sock fullBothState [] = .full fullBothState [])
    ∧ reserve_sock initialState = some (initialState.freeptr_sock.toNat,
        { initialState with
            freeptr_sock := (initialState.freeptr_sock + 1) % (QUEUE_SIZE : Int) }) :=
  ⟨(c6_reserve_slot_spec fullBothState [] []
      (by decide) (by decide) (by decide) (by decide)).1 (by decide),
   (c6_reserve_slot_spec initialState [] []
      (by decide) (by decide) (by decide) (by decide)).2.1 (by decide),
   (c6_reserve_slot_spec fullBothState [] []
      (by decide) (by decide) (by decide) (by decide)).2.2.1 (by decide),
   (c6_reserve_slot_spec initialState [] []
      (by decide) (by decide) (by decide) (by decide)).2.2.2 (by decide)⟩

/-- Claim C7: `dequeue_tun` / `dequeue_sock` under the queue's lock.  If
the queue is empty they return with no item and never reach the
processing callback; otherwise they select index `(readCursor + 1) mod N`,
advance the read cursor to exactly that index, and pass that slot's
stored payload and recorded length — and, socket-side, the stored sender
address — to the processing callback once.  The bound `-1 ≤ curptr` holds
in every reachable state (`-1` initially, afterwards always a reduced
non-negative index). -/
theorem c7_dequeue_spec (s : GlobalState)
    (ht : -1 ≤ s.curptr_tun) (hs : -1 ≤ s.curptr_sock) :
    (_queue_tun_isempty s = true → dequeue_tun s = .empty s)
    ∧ (_queue_tun_isempty s = false →
        dequeue_tun s = .processed
          { s with curptr_tun := (s.curptr_tun + 1) % (QUEUE_SIZE : Int) }
          (s.queue_tun.getD ((s.curptr_tun + 1) % (QUEUE_SIZE : Int)).toNat [])
          (s.length_tun.getD ((s.curptr_tun + 1) % (QUEUE_SIZE : Int)).toNat 0))
    ∧ (_queue_sock_isempty s = true → dequeue_sock s = .empty s)
    ∧ (_queue_sock_isempty s = false →
        dequeue_sock s = .processed
          { s with curptr_sock := (s.curptr_sock + 1) % (QUEUE_SIZE : Int) }
          (s.client_addr.getD ((s.curptr_sock + 1) % (QUEUE_SIZE : Int)).toNat ⟨0, 0⟩)
          (s.queue_sock.getD ((s.curptr_sock + 1) % (QUEUE_SIZE : Int)).toNat [])
          (s.length_sock.getD ((s.curptr_sock + 1) % (QUEUE_SIZE : Int)).toNat 0)) := by
  have hmt : Int.tmod (s.curptr_tun + 1) (QUEUE_SIZE : Int) =
      (s.curptr_tun + 1) % (QUEUE_SIZE : Int) :=
    Int.tmod_eq_emod (by omega) (by decide)
  have hms : Int.tmod (s.curptr_sock + 1) (QUEUE_SIZE : Int) =
      (s.curptr_sock + 1) % (QUEUE_SIZE : Int) :=
    Int.tmod_eq_emod (by omega) (by decide)
  refine ⟨fun h => ?_, fun h => ?_, fun h => ?_, fun h => ?_⟩
  · unfold dequeue_tun
    rw [if_pos h]
  · simp [dequeue_tun, h, hmt]
  · unfold dequeue_sock
    rw [if_pos h]
  · simp [dequeue_sock, h, hms]

/-- Witness for C7 at concrete states: the initial state is empty on both
sides, so both dequeues return with no item; with one slot reserved on
each side the claimed index is `(−1 + 1) mod 32 = 0` and slot 0's data is
handed to the callback. -/
theorem c7_dequeue_spec_witness :
    dequeue_tun initialState = .empty initialState
    ∧ dequeue_sock initialState = .empty initialState
    ∧ dequeue_tun nonemptyBothState = .processed
        { nonemptyBothState with
            curptr_tun := (nonemptyBothState.curptr_tun + 1) % (QUEUE_SIZE : Int) }
        (nonemptyBothState.queue_tun.getD
          ((nonemptyBothState.curptr_tun + 1) % (QUEUE_SIZE : Int)).toNat [])
        (nonemptyBothState.length_tun.getD
          ((nonemptyBothState.curptr_tun + 1) % (QUEUE_SIZE : Int)).toNat 0)
    ∧ dequeue_sock nonemptyBothState = .processed
        { nonemptyBothState with
            curptr_sock := (nonemptyBothState.curptr_sock + 1) % (QUEUE_SIZE : Int) }
        (nonemptyBothState.client_addr.getD
          ((nonemptyBothState.curptr_sock + 1) % (QUEUE_SIZE : Int)).toNat ⟨0, 0⟩)
        (nonemptyBothState.queue_sock.getD
          ((nonemptyBothState.curptr_sock + 1) % (QUEUE_SIZE : Int)).toNat [])
        (nonemptyBothState.length_sock.getD
          ((nonemptyBothState.curptr_sock + 1) % (QUEUE_SIZE : Int)).toNat 0) :=
  ⟨(c7_dequeue_spec initialState (by decide) (by decide)).1 (by decide),
   (c7_dequeue_spec initialState (by decide) (by decide)).2.2.1 (by decide),
   (c7_dequeue_spec nonemptyBothState (by decide) (by decide)).2.1 (by decide),
   (c7_dequeue_spec nonemptyBothState (by decide) (by decide)).2.2.2 (by decide)⟩

/-- Claim C8: the producer-side retry loops (shared by `enqueue_tun` /
`drop_tun`, and the `recvfrom` variants of `enqueue_sock` / `drop_sock`)
terminate the process exactly when a read/receive returns -1 with an
errno other than `EAGAIN` / `EINTR`, logging exactly one message
immediately before termination; a zero or negative result that is
transient is retried with the same blocking call (the loop's value is
unchanged by the retried event) until a positive length is obtained, and
a non-positive length is never surfaced to the caller. -/
theorem c8_read_retry_fatal_spec :
    ∀ (e : ReadEvent) (f : RecvEvent) (evs : List ReadEvent) (fs : List RecvEvent),
      (e.len = -1 → e.errno ≠ EAGAIN → e.errno ≠ EINTR →
        readLoop (e :: evs) = .fatal ["Read error"])
      ∧ (e.len ≤ 0 → (e.len = -1 → e.errno = EAGAIN ∨ e.errno = EINTR) →
          readLoop (e :: evs) = readLoop evs)
      ∧ (0 < e.len → readLoop (e :: evs) = .success e.payload e.len evs)
      ∧ (∀ l, readLoop evs = .fatal l → l = ["Read error"] ∧
          ∃ e1, e1 ∈ evs ∧ e1.len = -1 ∧ e1.errno ≠ EAGAIN ∧ e1.errno ≠ EINTR)
      ∧ (∀ p n rest, readLoop evs = .success p n rest → 0 < n)
      ∧ (f.len = -1 → f.errno ≠ EAGAIN → f.errno ≠ EINTR →
          recvLoop (f :: fs) = .fatal ["Recvfrom error"]
          ∧ recvDropLoop (f :: fs) = .fatal ["Read error"])
      ∧ (f.len ≤ 0 → (f.len = -1 → f.errno = EAGAIN ∨ f.errno = EINTR) →
          recvLoop (f :: fs) = recvLoop fs ∧ recvDropLoop (f :: fs) = recvDropLoop fs)
      ∧ (∀ l, recvLoop fs = .fatal l → l = ["Recvfrom error"] ∧
          ∃ e1, e1 ∈ fs ∧ e1.len = -1 ∧ e1.errno ≠ EAGAIN ∧ e1.errno ≠ EINTR)
      ∧ (∀ l, recvDropLoop fs = .fatal l → l = ["Read error"] ∧
          ∃ e1, e1 ∈ fs ∧ e1.len = -1 ∧ e1.errno ≠ EAGAIN ∧ e1.errno ≠ EINTR)
      ∧ (∀ p n a rest, recvLoop fs = .success p n a rest → 0 < n) := by
  intro e f evs fs
  have hnf : ∀ (len ea : Int), len ≤ 0 → (len = -1 → ea = EAGAIN ∨ ea = EINTR) →
      ¬(len = -1 ∧ ea ≠ EAGAIN ∧ ea ≠ EINTR) := by
    rintro len ea _ htr ⟨h1, h2, h3⟩
    rcases htr h1 with h | h
    · exact h2 h
    · exact h3 h
  refine ⟨fun h1 h2 h3 => ?_, fun hle htr => ?_, fun hpos => ?_,
    readLoop_fatal_char evs, fun p n rest => readLoop_success_pos evs rest p n,
    fun h1 h2 h3 => ⟨?_, ?_⟩, fun hle htr => ⟨?_, ?_⟩,
    recvLoop_fatal_char fs, recvDropLoop_fatal_char fs,
    fun p n a rest => recvLoop_success_pos fs rest p n a⟩
  · simp only [readLoop]
    rw [if_pos ⟨h1, h2, h3⟩]
  · simp only [readLoop]
    rw [if_neg (hnf e.len e.errno hle htr), if_pos hle]
  · simp only [readLoop]
    rw [if_neg (by omega), if_neg (by omega)]
  · simp only [recvLoop]
    rw [if_pos ⟨h1, h2, h3⟩]
  · simp only [recvDropLoop]
    rw [if_pos ⟨h1, h2, h3⟩]
  · simp only [recvLoop]
    rw [if_neg (hnf f.len f.errno hle htr), if_pos hle]
  · simp only [recvDropLoop]
    rw [if_neg (hnf f.len f.errno hle htr), if_pos hle]

/-- Witness for C8 at concrete events: a read returning -1 with errno 5
(EIO) is fatal with the single log "Read error" (receive side:
"Recvfrom error", and "Read error" again in `drop_sock`); a read
returning 0 and one returning -1 with `EINTR` are retried; a read
returning length 1 succeeds. -/
theorem c8_read_retry_fatal_spec_witness :
    readLoop [⟨-1, [], 5⟩] = .fatal ["Read error"]
    ∧ readLoop [⟨0, [], 0⟩, ⟨1, [7], 0⟩] = readLoop [⟨1, [7], 0⟩]
    ∧ readLoop [⟨-1, [], EINTR⟩, ⟨1, [7], 0⟩] = readLoop [⟨1, [7], 0⟩]
    ∧ readLoop [⟨1, [7], 0⟩] = .success [7] 1 []
    ∧ recvLoop [⟨-1, [], ⟨0, 0⟩, 5⟩] = .fatal ["Recvfrom error"]
    ∧ recvDropLoop [⟨-1, [], ⟨0, 0⟩, 5⟩] = .fatal ["Read error"] :=
  ⟨(c8_read_retry_fatal_spec ⟨-1, [], 5⟩ ⟨-1, [], ⟨0, 0⟩, 5⟩ [] []).1
      (by decide) (by decide) (by decide),
   (c8_read_retry_fatal_spec ⟨0, [], 0⟩ ⟨-1, [], ⟨0, 0⟩, 5⟩ [⟨1, [7], 0⟩] []).2.1
      (by decide) (by decide),
   (c8_read_retry_fatal_spec ⟨-1, [], EINTR⟩ ⟨-1, [], ⟨0, 0⟩, 5⟩ [⟨1, [7], 0⟩] []).2.1
      (by decide) (by decide),
   (c8_read_retry_fatal_spec ⟨1, [7], 0⟩ ⟨-1, [], ⟨0, 0⟩, 5⟩ [] []).2.2.1 (by decide),
   ((c8_read_retry_fatal_spec ⟨1, [7], 0⟩ ⟨-1, [], ⟨0, 0⟩, 5⟩ [] []).2.2.2.2.2.1
      (by decide) (by decide) (by decide)).1,
   ((c8_read_retry_fatal_spec ⟨1, [7], 0⟩ ⟨-1, [], ⟨0, 0⟩, 5⟩ [] []).2.2.2.2.2.1
      (by decide) (by decide) (by decide)).2⟩

/-- Claim C9: `drop_tun` and `drop_sock`, on every normal (`drained`)
return, leave the write and read cursors of both queues unchanged and
leave every stored slot payload, recorded length and sender address
unchanged — the discarded data only ever reaches the function-local
scratch buffer. -/
theorem c9_drop_preserves_queues (s s1 s2 : GlobalState)
    (evs : List ReadEvent) (fs : List RecvEvent) (d1 d2 : Bytes)
    (r1 : List ReadEvent) (r2 : List RecvEvent)
    (h1 : drop_tun s evs = .drained s1 d1 r1)
    (h2 : drop_sock s fs = .drainedSock s2 d2 r2) :
    (s1.freeptr_tun = s.freeptr_tun ∧ s1.curptr_tun = s.curptr_tun
      ∧ s1.freeptr_sock = s.freeptr_sock ∧ s1.curptr_sock = s.curptr_sock
      ∧ s1.queue_tun = s.queue_tun ∧ s1.length_tun = s.length_tun
      ∧ s1.queue_sock = s.queue_sock ∧ s1.length_sock = s.length_sock
      ∧ s1.client_addr = s.client_addr)
    ∧ (s2.freeptr_tun = s.freeptr_tun ∧ s2.curptr_tun = s.curptr_tun
        ∧ s2.freeptr_sock = s.freeptr_sock ∧ s2.curptr_sock = s.curptr_sock
        ∧ s2.queue_tun = s.queue_tun ∧ s2.length_tun = s.length_tun
        ∧ s2.queue_sock = s.queue_sock ∧ s2.length_sock = s.length_sock
        ∧ s2.client_addr = s.client_addr) := by
  have e1 : s1 = s := by
    unfold drop_tun at h1
    cases hr : readLoop evs with
    | success p l rest =>
      rw [hr] at h1
      injection h1 with ha hb hc
      exact ha.symm
    | fatal l =>
      rw [hr] at h1
      exact absurd h1 (by simp)
    | pending =>
      rw [hr] at h1
      exact absurd h1 (by simp)
  have e2 : s2 = s := by
    unfold drop_sock at h2
    cases hr : recvDropLoop fs with
    | success p l rest =>
      rw [hr] at h2
      injection h2 with ha hb hc
      exact ha.symm
    | fatal l =>
      rw [hr] at h2
      exact absurd h2 (by simp)
    | pending =>
      rw [hr] at h2
      exact absurd h2 (by simp)
  subst e1
  subst e2
  exact ⟨⟨rfl, rfl, rfl, rfl, rfl, rfl, rfl, rfl, rfl⟩,
    ⟨rfl, rfl, rfl, rfl, rfl, rfl, rfl, rfl, rfl⟩⟩

/-- Witness for C9: draining one packet on each side from the initial
state leaves every cursor and every stored slot of both queues equal to
what it was. -/
theorem c9_drop_preserves_queues_witness :
    (initialState.freeptr_tun = initialState.freeptr_tun
      ∧ initialState.curptr_tun = initialState.curptr_tun
      ∧ initialState.freeptr_sock = initialState.freeptr_sock
      ∧ initialState.curptr_sock = initialState.curptr_sock
      ∧ initialState.queue_tun = initialState.queue_tun
      ∧ initialState.length_tun = initialState.length_tun
      ∧ initialState.queue_sock = initialState.queue_sock
      ∧ initialState.length_sock = initialState.length_sock
      ∧ initialState.client_addr = initialState.client_addr)
    ∧ (initialState.freeptr_tun = initialState.freeptr_tun
        ∧ initialState.curptr_tun = initialState.curptr_tun
        ∧ initialState.freeptr_sock = initialState.freeptr_sock
        ∧ initialState.curptr_sock = initialState.curptr_sock
        ∧ initialState.queue_tun = initialState.queue_tun
        ∧ initialState.length_tun = initialState.length_tun
        ∧ initialState.queue_sock = initialState.queue_sock
        ∧ initialState.length_sock = initialState.length_sock
        ∧ initialState.client_addr = initialState.client_addr) :=
  c9_drop_preserves_queues initialState initialState initialState
    [⟨1, [9], 0⟩] [⟨1, [9], ⟨1, 2⟩, 0⟩] [9] [9] [] []
    (by decide) (by decide)

/-- Claim C10: when the queue is full (`freeptr == curptr`),
`enqueue_tun` / `enqueue_sock` return immediately: the event stream is
untouched (no read/receive is performed on the I/O source), no cursor,
slot payload, length or address is modified (the returned state is the
argument state), and the condition variable is not signalled (only the
`published` outcome models `pthread_cond_signal`).  Discarding a unit of
input is done only by the separate `drop_tun` / `drop_sock` operations,
which consume an event without ever touching the queues (see C9). -/
theorem c10_enqueue_full_no_effect (s : GlobalState)
    (evs : List ReadEvent) (fs : List RecvEvent)
    (ht : s.freeptr_tun = s.curptr_tun) (hs : s.freeptr_sock = s.curptr_sock) :
    enqueue_tun s evs = .full s evs ∧ enqueue_sock s fs = .full s fs := by
  constructor
  · have hr : reserve_tun s = none := by
      unfold reserve_tun
      rw [if_pos ht]
    rw [enqueue_tun, hr]
  · have hr : reserve_sock s = none := by
      unfold reserve_sock
      rw [if_pos hs]
    rw [enqueue_sock, hr]

/-- Witness for C10 at a concrete full state (both full checks fire). -/
theorem c10_enqueue_full_no_effect_witness :
    enqueue_tun fullBothState [⟨1, [3], 0⟩] = .full fullBothState [⟨1, [3], 0⟩]
    ∧ enqueue_sock fullBothState [⟨1, [3], ⟨1, 2⟩, 0⟩] =
        .full fullBothState [⟨1, [3], ⟨1, 2⟩, 0⟩] :=
  c10_enqueue_full_no_effect fullBothState [⟨1, [3], 0⟩] [⟨1, [3], ⟨1, 2⟩, 0⟩]
    (by decide) (by decide)
